import Mathlib

/-!
Verification of the Qdrant embeddings-search notebook
(examples/vector_databases/qdrant/Using_Qdrant_for_embeddings_search.ipynb).

The notebook is a straight-line script issuing calls to external services
(wget download, zip extraction, pandas CSV read, the Qdrant client, the
OpenAI embeddings API).  We model it as a function from a `World` — an
oracle describing how every external call behaves, including which calls
raise exceptions — to the trace of operations the script issues, paired
with an `Except` value recording whether the script terminates normally or
with an uncaught exception.  Float values are modelled as rationals.
-/

namespace QdrantNB

/-- A row of the CSV file as loaded by pandas read_csv: the seven columns of
vector_database_wikipedia_articles_embedded.csv.  The two vector columns are
still stringified lists; id and vector_id are numeric. -/
structure RawRow where
  id : Int
  url : String
  title : String
  text : String
  title_vector : String
  content_vector : String
  vector_id : Int
deriving DecidableEq

/-- A row after the parsing cell: the two vector columns hold lists of
numbers (produced by literal_eval), vector_id holds its string form
(produced by str); the other four columns are unchanged. -/
structure ParsedRow where
  id : Int
  url : String
  title : String
  text : String
  title_vector : List ℚ
  content_vector : List ℚ
  vector_id : String
deriving DecidableEq

/-- A payload value: the notebook stores the integer article id and the two
strings title and url. -/
inductive PValue where
  | pInt (i : Int)
  | pStr (s : String)
deriving DecidableEq

/-- Distance metric passed to recreate_collection; the notebook only ever
uses COSINE. -/
inductive Distance where
  | COSINE
deriving DecidableEq

/-- rest.VectorParams as used in the vectors_config dict. -/
structure VectorParams where
  distance : Distance
  size : Nat
deriving DecidableEq

/-- qdrant_client.models.PointStruct: the id, the dict of named vectors and
the payload dict.  Python dicts are modelled as insertion-ordered
association lists. -/
structure PointStruct where
  id : Nat
  vector : List (String × List ℚ)
  payload : List (String × PValue)
deriving DecidableEq

/-- A scored point as returned by qdrant.search: the cells only read its
payload and score. -/
structure ScoredPoint where
  payload : List (String × PValue)
  score : ℚ
deriving DecidableEq

/-- The operations the script issues, in the order it issues them.  print
operations are recorded structurally (the data that is printed), not as
formatted strings. -/
inductive Event where
  | download (url : String)
  | extractAll (zipPath dest : String)
  | readCsv (path : String)
  | parseVectors
  | getCollections
  | recreateCollection (collection : String) (cfg : List (String × VectorParams))
  | upsert (collection : String) (points : List PointStruct)
  | printFailedRow (k : Nat) (row : ParsedRow) (exc : String)
  | countPoints (collection : String)
  | createEmbedding (input model : String)
  | search (collection vectorName : String) (queryVector : List ℚ)
      (limit : Nat) (hasFilter : Bool)
  | printResult (rank : Nat) (title url : PValue) (score : ℚ)
deriving DecidableEq

/-- The external world: the contents of the downloaded CSV, the behaviour of
literal_eval and str, and for every external call whether it raises an
exception (`some msg`) or succeeds.  Upsert exceptions are keyed by the row
index of the attempted upsert. -/
structure World where
  downloadExc : Option String
  extractExc : Option String
  readCsvExc : Option String
  csv : List RawRow
  litEval : String → Except String (List ℚ)
  intStr : Int → String
  getCollectionsExc : Option String
  recreateExc : Option String
  upsertExc : Nat → Option String
  countExc : Option String
  embedResp : String → String → Except String (List (List ℚ))
  searchRes : String → String → List ℚ → Nat → Except String (List ScoredPoint)

def embeddings_url : String :=
  "https://cdn.openai.com/API/examples/data/vector_database_wikipedia_articles_embedded.zip"

def zipFileName : String := "vector_database_wikipedia_articles_embedded.zip"

def csvPath : String := "../data/vector_database_wikipedia_articles_embedded.csv"

def EMBEDDING_MODEL : String := "text-embedding-ada-002"

/-- Sequencing of script fragments: events accumulate; an uncaught exception
aborts the rest of the script. -/
def step {α β : Type} (r : List Event × Except String α)
    (f : α → List Event × Except String β) : List Event × Except String β :=
  match r with
  | (tr, Except.error e) => (tr, Except.error e)
  | (tr, Except.ok a) =>
    let p := f a
    (tr ++ p.1, p.2)

/-- Series.apply: applies f to each element of a column, propagating the
first exception (pandas aborts the whole apply on the first failing row). -/
def applyCol {α β : Type} (f : α → Except String β) : List α → Except String (List β)
  | [] => Except.ok []
  | a :: as =>
    match f a with
    | Except.error e => Except.error e
    | Except.ok b =>
      match applyCol f as with
      | Except.error e => Except.error e
      | Except.ok bs => Except.ok (b :: bs)

/-- Reassembles the dataframe after the three column assignments of the
parsing cell: parsed title vectors, parsed content vectors and stringified
vector ids are zipped back with the untouched columns. -/
def buildParsed : List RawRow → List (List ℚ) → List (List ℚ) → List String → List ParsedRow
  | r :: rs, t :: ts, c :: cs, v :: vs =>
    { id := r.id, url := r.url, title := r.title, text := r.text,
      title_vector := t, content_vector := c, vector_id := v } :: buildParsed rs ts cs vs
  | _, _, _, _ => []

/-- The parsing cell: literal_eval over the title_vector column, then
literal_eval over the content_vector column, then str over vector_id. -/
def parseFrame (w : World) (raws : List RawRow) : Except String (List ParsedRow) :=
  match applyCol w.litEval (raws.map RawRow.title_vector) with
  | Except.error e => Except.error e
  | Except.ok ts =>
    match applyCol w.litEval (raws.map RawRow.content_vector) with
    | Except.error e => Except.error e
    | Except.ok cs =>
      Except.ok (buildParsed raws ts cs (raws.map (fun r => w.intStr r.vector_id)))

/-- len(article_df['content_vector'][0]): the length of the first row's
content vector; raises a KeyError on an empty dataframe. -/
def vectorSizeE (df : List ParsedRow) : Except String Nat :=
  match df with
  | [] => Except.error "KeyError: 0"
  | r :: _ => Except.ok r.content_vector.length

/-- The vectors_config dict passed to recreate_collection: both named
vector fields get COSINE distance and the same size. -/
def collectionConfig (n : Nat) : List (String × VectorParams) :=
  [("title", { distance := Distance.COSINE, size := n }),
   ("content", { distance := Distance.COSINE, size := n })]

/-- The PointStruct built in the upsert loop for row v at index k. -/
def mkPoint (k : Nat) (v : ParsedRow) : PointStruct :=
  { id := k
  , vector := [("title", v.title_vector), ("content", v.content_vector)]
  , payload := [("id", PValue.pInt v.id), ("title", PValue.pStr v.title),
                ("url", PValue.pStr v.url)] }

/-- The upsert loop over iterrows, starting at index i: each row is upserted
in its own call; an exception from the call is caught, the failed row and
the exception are printed, and the loop continues with the next row. -/
def upsertLoop (w : World) : Nat → List ParsedRow → List Event
  | _, [] => []
  | i, v :: rest =>
    Event.upsert "Articles" [mkPoint i v] ::
      match w.upsertExc i with
      | some e => Event.printFailedRow i v e :: upsertLoop w (i + 1) rest
      | none => upsertLoop w (i + 1) rest

/-- Python dict subscript on a payload: KeyError when the key is absent. -/
def lookupPayload (kvs : List (String × PValue)) (key : String) : Except String PValue :=
  match kvs.find? (fun p => p.1 == key) with
  | some p => Except.ok p.2
  | none => Except.error "KeyError"

/-- The result-printing loop of the query cells: for each scored point, its
title and url payload entries are read (a missing key raises an uncaught
KeyError) and printed with its rank i + 1 and score. -/
def printResults : Nat → List ScoredPoint → List Event × Except String Unit
  | _, [] => ([], Except.ok ())
  | i, a :: rest =>
    match lookupPayload a.payload "title" with
    | Except.error e => ([], Except.error e)
    | Except.ok t =>
      match lookupPayload a.payload "url" with
      | Except.error e => ([], Except.error e)
      | Except.ok u =>
        let p := printResults (i + 1) rest
        (Event.printResult (i + 1) t u a.score :: p.1, p.2)

/-- query_qdrant: embeds the query with the embeddings API, takes the first
embedding of the response (IndexError when the response holds none), then
searches with query_vector = (vector_name, embedding), limit = top_k and
query_filter = None. -/
def query_qdrant (w : World) (query collection_name : String)
    (vector_name : String := "title") (top_k : Nat := 20) :
    List Event × Except String (List ScoredPoint) :=
  match w.embedResp query EMBEDDING_MODEL with
  | Except.error e => ([Event.createEmbedding query EMBEDDING_MODEL], Except.error e)
  | Except.ok data =>
    match data with
    | [] => ([Event.createEmbedding query EMBEDDING_MODEL],
             Except.error "IndexError: list index out of range")
    | d :: _ =>
      match w.searchRes collection_name vector_name d top_k with
      | Except.error e =>
        ([Event.createEmbedding query EMBEDDING_MODEL,
          Event.search collection_name vector_name d top_k false], Except.error e)
      | Except.ok res =>
        ([Event.createEmbedding query EMBEDDING_MODEL,
          Event.search collection_name vector_name d top_k false], Except.ok res)

def orNone (exc : Option String) : Except String Unit :=
  match exc with
  | some e => Except.error e
  | none => Except.ok ()

def phaseDownload (w : World) : List Event × Except String Unit :=
  ([Event.download embeddings_url], orNone w.downloadExc)

def phaseExtract (w : World) : List Event × Except String Unit :=
  ([Event.extractAll zipFileName "../data"], orNone w.extractExc)

def phaseReadCsv (w : World) : List Event × Except String (List RawRow) :=
  ([Event.readCsv csvPath],
   match w.readCsvExc with
   | some e => Except.error e
   | none => Except.ok w.csv)

def phaseParse (w : World) (raws : List RawRow) : List Event × Except String (List ParsedRow) :=
  ([Event.parseVectors], parseFrame w raws)

def phaseGetCollections (w : World) : List Event × Except String Unit :=
  ([Event.getCollections], orNone w.getCollectionsExc)

def phaseRecreate (w : World) (df : List ParsedRow) : List Event × Except String Unit :=
  match vectorSizeE df with
  | Except.error e => ([], Except.error e)
  | Except.ok n =>
    ([Event.recreateCollection "Articles" (collectionConfig n)], orNone w.recreateExc)

def phaseCount (w : World) : List Event × Except String Unit :=
  ([Event.countPoints "Articles"], orNone w.countExc)

/-- Cells up to and including the two recreate_collection cells; the result
is the parsed dataframe. -/
def prefixPhases (w : World) : List Event × Except String (List ParsedRow) :=
  step (phaseDownload w) (fun _ =>
  step (phaseExtract w) (fun _ =>
  step (phaseReadCsv w) (fun raws =>
  step (phaseParse w raws) (fun df =>
  step (phaseGetCollections w) (fun _ =>
  step (phaseRecreate w df) (fun _ =>
  step (phaseRecreate w df) (fun _ =>
  ([], Except.ok df))))))))

/-- Cells after the upsert loop: the count check, the title-vector query and
its result printing, then the content-vector query and its printing. -/
def postPhases (w : World) : List Event × Except String Unit :=
  step (phaseCount w) (fun _ =>
  step (query_qdrant w "modern art in Europe" "Articles" "title" 20) (fun res1 =>
  step (printResults 0 res1) (fun _ =>
  step (query_qdrant w "Famous battles in Scottish history" "Articles" "content" 20) (fun res2 =>
  step (printResults 0 res2) (fun _ =>
  ([], Except.ok ()))))))

/-- The whole notebook, top to bottom. -/
def runScript (w : World) : List Event × Except String Unit :=
  step (prefixPhases w) (fun df =>
  step (upsertLoop w 0 df, Except.ok ()) (fun _ =>
  postPhases w))

/-! Helper predicates and lemmas. -/

def isUpsertEvt : Event → Bool
  | Event.upsert _ _ => true
  | _ => false

def isSearchEvt : Event → Bool
  | Event.search _ _ _ _ _ => true
  | _ => false

def isPrintResEvt : Event → Bool
  | Event.printResult _ _ _ _ => true
  | _ => false

def isPrintFailedEvt : Event → Bool
  | Event.printFailedRow _ _ _ => true
  | _ => false

/-- Pairs each element of a list with its index, starting at i. -/
def withIdx {α : Type} : Nat → List α → List (Nat × α)
  | _, [] => []
  | i, a :: as => (i, a) :: withIdx (i + 1) as

/-- Relation between a raw CSV row and its parsed form: the four plain
columns are unchanged, the vector columns are the literal_eval results of
their string forms, and vector_id is the str image of the raw value. -/
def RowRel (w : World) (r : RawRow) (p : ParsedRow) : Prop :=
  p.id = r.id ∧ p.url = r.url ∧ p.title = r.title ∧ p.text = r.text ∧
    w.litEval r.title_vector = Except.ok p.title_vector ∧
    w.litEval r.content_vector = Except.ok p.content_vector ∧
    p.vector_id = w.intStr r.vector_id

/-- Replaces the title vector of a parsed row. -/
def setTitleVec (f : List ℚ → List ℚ) (r : ParsedRow) : ParsedRow :=
  { r with title_vector := f r.title_vector }

/-- Replaces the vector_id of a parsed row. -/
def setVectorId (r : ParsedRow) (s : String) : ParsedRow :=
  { r with vector_id := s }

/-! Concrete sample data used to instantiate the theorems. -/

def sampleRaw : RawRow :=
  { id := 1, url := "u1", title := "t1", text := "x1",
    title_vector := "tv", content_vector := "cv", vector_id := 7 }

def sampleLit (s : String) : Except String (List ℚ) :=
  if s = "tv" then Except.ok [1, 2]
  else if s = "cv" then Except.ok [3, 4]
  else Except.error "malformed node or string"

def samplePoint : ScoredPoint :=
  { payload := [("title", PValue.pStr "rt"), ("url", PValue.pStr "ru")], score := 1 }

/-- A world in which every external call succeeds, over a one-row CSV. -/
def W0 : World :=
  { downloadExc := none, extractExc := none, readCsvExc := none,
    csv := [sampleRaw],
    litEval := sampleLit,
    intStr := fun i => toString i,
    getCollectionsExc := none, recreateExc := none,
    upsertExc := fun _ => none,
    countExc := none,
    embedResp := fun _ _ => Except.ok [[5, 6]],
    searchRes := fun _ _ _ m => Except.ok (List.take m [samplePoint]) }

/-- Like W0, but the upsert of row 0 raises an exception. -/
def W1 : World :=
  { W0 with upsertExc := fun k => if k = 0 then some "boom" else none }

/-- Like W1, but the raw row's vector_id is 8 instead of 7; nothing else
differs. -/
def W8b : World :=
  { W1 with csv := [{ sampleRaw with vector_id := 8 }] }

/-- The parsed form of sampleRaw under W0. -/
def sampleParsed : ParsedRow :=
  { id := 1, url := "u1", title := "t1", text := "x1",
    title_vector := [1, 2], content_vector := [3, 4], vector_id := "7" }

theorem step_ok {α β : Type} (tr : List Event) (a : α)
    (f : α → List Event × Except String β) :
    step (tr, Except.ok a) f = (tr ++ (f a).1, (f a).2) := rfl

theorem step_error {α β : Type} (tr : List Event) (e : String)
    (f : α → List Event × Except String β) :
    step (tr, Except.error e) f = (tr, Except.error e) := rfl

theorem get_mem_withIdx {α : Type} (l : List α) (i k : Nat) (h : k < l.length) :
    (i + k, l.get ⟨k, h⟩) ∈ withIdx i l := by
  induction l generalizing i k with
  | nil => cases h
  | cons a as ih =>
    cases k with
    | zero => simp [withIdx]
    | succ k =>
      have hk : k < as.length := Nat.lt_of_succ_lt_succ h
      have := ih (i + 1) k hk
      simp only [withIdx, List.mem_cons]
      right
      have harith : i + (k + 1) = i + 1 + k := by omega
      rw [harith]
      simpa using this

theorem mem_withIdx {α : Type} {l : List α} {i k : Nat} {a : α}
    (h : (k, a) ∈ withIdx i l) :
    ∃ j, ∃ hj : j < l.length, k = i + j ∧ a = l.get ⟨j, hj⟩ := by
  induction l generalizing i with
  | nil => cases h
  | cons b bs ih =>
    simp only [withIdx, List.mem_cons] at h
    rcases h with h | h
    · have h1 : k = i := congrArg Prod.fst h
      have h2 : a = b := congrArg Prod.snd h
      exact ⟨0, by simp, by omega, by simp [h2]⟩
    · rcases ih h with ⟨j, hj, hk, ha⟩
      exact ⟨j + 1, by simpa using Nat.succ_lt_succ hj, by omega, by simpa using ha⟩

theorem upsertLoop_mem_upsert (w : World) (df : List ParsedRow) (i k : Nat)
    (h : k < df.length) :
    Event.upsert "Articles" [mkPoint (i + k) (df.get ⟨k, h⟩)] ∈ upsertLoop w i df := by
  induction df generalizing i k with
  | nil => cases h
  | cons v rest ih =>
    cases k with
    | zero => cases hx : w.upsertExc i <;> simp [upsertLoop, hx]
    | succ k =>
      have hk : k < rest.length := Nat.lt_of_succ_lt_succ h
      have harith : i + (k + 1) = i + 1 + k := by omega
      have hmem : Event.upsert "Articles" [mkPoint (i + (k + 1)) (rest.get ⟨k, hk⟩)]
          ∈ upsertLoop w (i + 1) rest := by
        rw [harith]; exact ih (i + 1) k hk
      cases hx : w.upsertExc i
      · simp only [upsertLoop, hx, List.mem_cons]
        exact Or.inr hmem
      · simp only [upsertLoop, hx, List.mem_cons]
        exact Or.inr (Or.inr hmem)

theorem upsertLoop_mem_printFailed (w : World) (df : List ParsedRow) (i k : Nat)
    (h : k < df.length) (e : String) (hx : w.upsertExc (i + k) = some e) :
    Event.printFailedRow (i + k) (df.get ⟨k, h⟩) e ∈ upsertLoop w i df := by
  induction df generalizing i k with
  | nil => cases h
  | cons v rest ih =>
    cases k with
    | zero =>
      simp only [Nat.add_zero] at hx
      simp [upsertLoop, hx]
    | succ k =>
      have hk : k < rest.length := Nat.lt_of_succ_lt_succ h
      have harith : i + (k + 1) = i + 1 + k := by omega
      have hmem : Event.printFailedRow (i + (k + 1)) (rest.get ⟨k, hk⟩) e
          ∈ upsertLoop w (i + 1) rest := by
        rw [harith]; exact ih (i + 1) k hk (by rw [← harith]; exact hx)
      cases hy : w.upsertExc i
      · simp only [upsertLoop, hy, List.mem_cons]
        exact Or.inr hmem
      · simp only [upsertLoop, hy, List.mem_cons]
        exact Or.inr (Or.inr hmem)

theorem upsertLoop_upsert_inv (w : World) (df : List ParsedRow) (i : Nat)
    (collection : String) (pts : List PointStruct)
    (h : Event.upsert collection pts ∈ upsertLoop w i df) :
    ∃ k, ∃ hk : k < df.length,
      collection = "Articles" ∧ pts = [mkPoint (i + k) (df.get ⟨k, hk⟩)] := by
  induction df generalizing i with
  | nil => cases h
  | cons v rest ih =>
    have hcons :
        Event.upsert collection pts = Event.upsert "Articles" [mkPoint i v] ∨
          Event.upsert collection pts ∈ upsertLoop w (i + 1) rest := by
      cases hx : w.upsertExc i <;> simp only [upsertLoop, hx, List.mem_cons] at h <;>
        rcases h with h | h <;> simp_all
    rcases hcons with h | h
    · refine ⟨0, by simp, ?_, ?_⟩ <;> injection h with h1 h2 <;> simp_all
    · rcases ih (i + 1) h with ⟨k, hk, hc, hp⟩
      refine ⟨k + 1, by simpa using Nat.succ_lt_succ hk, hc, ?_⟩
      have harith : i + 1 + k = i + (k + 1) := by omega
      rw [harith] at hp
      simpa using hp

theorem upsertLoop_filter (w : World) (df : List ParsedRow) (i : Nat) :
    (upsertLoop w i df).filter isUpsertEvt
      = (withIdx i df).map (fun kv => Event.upsert "Articles" [mkPoint kv.1 kv.2]) := by
  induction df generalizing i with
  | nil => rfl
  | cons v rest ih =>
    cases hx : w.upsertExc i <;>
      simp [upsertLoop, hx, withIdx, List.filter, isUpsertEvt, ih]

theorem printResults_filter_upsert (i : Nat) (rs : List ScoredPoint) :
    ((printResults i rs).1).filter isUpsertEvt = [] := by
  induction rs generalizing i with
  | nil => rfl
  | cons a rest ih =>
    simp only [printResults]
    cases lookupPayload a.payload "title" with
    | error e => rfl
    | ok t =>
      cases lookupPayload a.payload "url" with
      | error e => rfl
      | ok u => simp [List.filter, isUpsertEvt, ih]

theorem runScript_decomp (w : World) (df : List ParsedRow) (tr0 : List Event)
    (hpre : prefixPhases w = (tr0, Except.ok df)) :
    runScript w
      = (tr0 ++ (upsertLoop w 0 df ++ (postPhases w).1), (postPhases w).2) := by
  simp [runScript, hpre, step]

theorem prefixPhases_ok (w : World) (df : List ParsedRow) (n : Nat)
    (hdl : w.downloadExc = none) (hex : w.extractExc = none)
    (hrd : w.readCsvExc = none)
    (hpar : parseFrame w w.csv = Except.ok df)
    (hgc : w.getCollectionsExc = none)
    (hvs : vectorSizeE df = Except.ok n)
    (hrc : w.recreateExc = none) :
    prefixPhases w =
      ([Event.download embeddings_url, Event.extractAll zipFileName "../data",
        Event.readCsv csvPath, Event.parseVectors, Event.getCollections,
        Event.recreateCollection "Articles" (collectionConfig n),
        Event.recreateCollection "Articles" (collectionConfig n)],
       Except.ok df) := by
  simp [prefixPhases, step, phaseDownload, phaseExtract, phaseReadCsv, phaseParse,
        phaseGetCollections, phaseRecreate, orNone, hdl, hex, hrd, hpar, hgc, hvs, hrc]

theorem postPhases_ok (w : World) (d1 d2 : List ℚ) (t1 t2 : List (List ℚ))
    (res1 res2 : List ScoredPoint) (p1 p2 : List Event)
    (hct : w.countExc = none)
    (he1 : w.embedResp "modern art in Europe" EMBEDDING_MODEL = Except.ok (d1 :: t1))
    (hs1 : w.searchRes "Articles" "title" d1 20 = Except.ok res1)
    (hp1 : printResults 0 res1 = (p1, Except.ok ()))
    (he2 : w.embedResp "Famous battles in Scottish history" EMBEDDING_MODEL
             = Except.ok (d2 :: t2))
    (hs2 : w.searchRes "Articles" "content" d2 20 = Except.ok res2)
    (hp2 : printResults 0 res2 = (p2, Except.ok ())) :
    postPhases w =
      ([Event.countPoints "Articles",
        Event.createEmbedding "modern art in Europe" EMBEDDING_MODEL,
        Event.search "Articles" "title" d1 20 false]
       ++ p1
       ++ ([Event.createEmbedding "Famous battles in Scottish history" EMBEDDING_MODEL,
            Event.search "Articles" "content" d2 20 false]
       ++ p2),
       Except.ok ()) := by
  simp [postPhases, step, phaseCount, query_qdrant, orNone, hct, he1, hs1, hp1,
        he2, hs2, hp2]

theorem runScript_trace (w : World) (df : List ParsedRow) (n : Nat)
    (d1 d2 : List ℚ) (t1 t2 : List (List ℚ))
    (res1 res2 : List ScoredPoint) (p1 p2 : List Event)
    (hdl : w.downloadExc = none) (hex : w.extractExc = none)
    (hrd : w.readCsvExc = none)
    (hpar : parseFrame w w.csv = Except.ok df)
    (hgc : w.getCollectionsExc = none)
    (hvs : vectorSizeE df = Except.ok n)
    (hrc : w.recreateExc = none)
    (hct : w.countExc = none)
    (he1 : w.embedResp "modern art in Europe" EMBEDDING_MODEL = Except.ok (d1 :: t1))
    (hs1 : w.searchRes "Articles" "title" d1 20 = Except.ok res1)
    (hp1 : printResults 0 res1 = (p1, Except.ok ()))
    (he2 : w.embedResp "Famous battles in Scottish history" EMBEDDING_MODEL
             = Except.ok (d2 :: t2))
    (hs2 : w.searchRes "Articles" "content" d2 20 = Except.ok res2)
    (hp2 : printResults 0 res2 = (p2, Except.ok ())) :
    runScript w =
      ([Event.download embeddings_url, Event.extractAll zipFileName "../data",
        Event.readCsv csvPath, Event.parseVectors, Event.getCollections,
        Event.recreateCollection "Articles" (collectionConfig n),
        Event.recreateCollection "Articles" (collectionConfig n)]
       ++ (upsertLoop w 0 df
       ++ ([Event.countPoints "Articles",
            Event.createEmbedding "modern art in Europe" EMBEDDING_MODEL,
            Event.search "Articles" "title" d1 20 false]
           ++ p1
           ++ ([Event.createEmbedding "Famous battles in Scottish history"
                  EMBEDDING_MODEL,
                Event.search "Articles" "content" d2 20 false]
           ++ p2))),
       Except.ok ()) := by
  have h1 := prefixPhases_ok w df n hdl hex hrd hpar hgc hvs hrc
  have h2 := postPhases_ok w d1 d2 t1 t2 res1 res2 p1 p2 hct he1 hs1 hp1 he2 hs2 hp2
  rw [runScript_decomp w df _ h1, h2]

theorem printResults_events (i : Nat) (rs : List ScoredPoint) :
    ∀ ev ∈ (printResults i rs).1, isPrintResEvt ev = true := by
  induction rs generalizing i with
  | nil => intro ev h; cases h
  | cons a rest ih =>
    intro ev h
    simp only [printResults] at h
    cases ht : lookupPayload a.payload "title" with
    | error e => rw [ht] at h; cases h
    | ok t =>
      cases hu : lookupPayload a.payload "url" with
      | error e => rw [ht, hu] at h; cases h
      | ok u =>
        rw [ht, hu] at h
        simp only [List.mem_cons] at h
        rcases h with h | h
        · subst h; rfl
        · exact ih (i + 1) ev h

theorem applyCol_ok {α β : Type} (f : α → Except String β) :
    ∀ (xs : List α) (ys : List β), applyCol f xs = Except.ok ys →
      List.Forall₂ (fun a b => f a = Except.ok b) xs ys := by
  intro xs
  induction xs with
  | nil =>
    intro ys h
    simp only [applyCol] at h
    injection h with h
    subst h
    exact List.Forall₂.nil
  | cons a as ih =>
    intro ys h
    simp only [applyCol] at h
    cases hf : f a with
    | error e => rw [hf] at h; cases h
    | ok b =>
      rw [hf] at h
      cases hr : applyCol f as with
      | error e => rw [hr] at h; cases h
      | ok bs =>
        rw [hr] at h
        injection h with h
        subst h
        exact List.Forall₂.cons hf (ih bs hr)

theorem buildParsed_rel (w : World) :
    ∀ (raws : List RawRow) (ts cs : List (List ℚ)),
      List.Forall₂ (fun r t => w.litEval r.title_vector = Except.ok t) raws ts →
      List.Forall₂ (fun r c => w.litEval r.content_vector = Except.ok c) raws cs →
      List.Forall₂ (RowRel w) raws
        (buildParsed raws ts cs (raws.map (fun r => w.intStr r.vector_id))) := by
  intro raws
  induction raws with
  | nil =>
    intro ts cs ht hc
    cases ht
    exact List.Forall₂.nil
  | cons r rs ih =>
    intro ts cs ht hc
    cases ht with
    | cons hrt hts =>
      cases hc with
      | cons hrc hcs =>
        exact List.Forall₂.cons ⟨rfl, rfl, rfl, rfl, hrt, hrc, rfl⟩ (ih _ _ hts hcs)

theorem parseFrame_rows (w : World) (raws : List RawRow) (df : List ParsedRow)
    (h : parseFrame w raws = Except.ok df) :
    List.Forall₂ (RowRel w) raws df := by
  unfold parseFrame at h
  cases ht : applyCol w.litEval (raws.map RawRow.title_vector) with
  | error e => rw [ht] at h; cases h
  | ok ts =>
    rw [ht] at h
    cases hc : applyCol w.litEval (raws.map RawRow.content_vector) with
    | error e => rw [hc] at h; cases h
    | ok cs =>
      rw [hc] at h
      injection h with h
      subst h
      have hts := List.forall₂_map_left_iff.mp (applyCol_ok w.litEval _ ts ht)
      have hcs := List.forall₂_map_left_iff.mp (applyCol_ok w.litEval _ cs hc)
      exact buildParsed_rel w raws ts cs hts hcs

theorem upsertLoop_event_kinds (w : World) (i : Nat) (df : List ParsedRow) :
    ∀ ev ∈ upsertLoop w i df, isUpsertEvt ev = true ∨ isPrintFailedEvt ev = true := by
  induction df generalizing i with
  | nil => intro ev h; cases h
  | cons v rest ih =>
    intro ev h
    cases hx : w.upsertExc i <;> simp only [upsertLoop, hx, List.mem_cons] at h
    · rcases h with h | h
      · subst h; exact Or.inl rfl
      · exact ih (i + 1) ev h
    · rcases h with h | h | h
      · subst h; exact Or.inl rfl
      · subst h; exact Or.inr rfl
      · exact ih (i + 1) ev h

theorem withIdx_map {α β : Type} (g : α → β) :
    ∀ (i : Nat) (l : List α),
      withIdx i (l.map g) = (withIdx i l).map (fun kv => (kv.1, g kv.2)) := by
  intro i l
  induction l generalizing i with
  | nil => rfl
  | cons a as ih => simp [withIdx, ih]

/-! Claim theorems. -/

/-- C2: the indexing step pushes every row of the loaded dataframe to the
collection named Articles: whenever the phases before the upsert loop
succeed and produce the parsed dataframe df, the script's trace contains,
for every row index k, an upsert call on collection Articles carrying the
point built from row k. -/
theorem all_rows_upserted (w : World) (df : List ParsedRow) (tr0 : List Event)
    (hpre : prefixPhases w = (tr0, Except.ok df)) (k : Nat) (hk : k < df.length) :
    Event.upsert "Articles" [mkPoint k (df.get ⟨k, hk⟩)] ∈ (runScript w).1 := by
  rw [runScript_decomp w df tr0 hpre]
  have hmem := upsertLoop_mem_upsert w df 0 k hk
  simp only [Nat.zero_add] at hmem
  exact List.mem_append.mpr (Or.inr (List.mem_append.mpr (Or.inl hmem)))

/-- Witness for all_rows_upserted at the concrete world W0. -/
theorem all_rows_upserted_witness :
    Event.upsert "Articles" [mkPoint 0 sampleParsed] ∈ (runScript W0).1 :=
  all_rows_upserted W0 [sampleParsed] _
    (prefixPhases_ok W0 [sampleParsed] 2 rfl rfl rfl rfl rfl rfl rfl) 0 (by decide)

/-- C4: every record written to the collection is a single PointStruct whose
named-vector dict holds exactly the fields title and content, taken from
the row's two vector columns, and whose payload holds exactly the keys id,
title and url taken from the same row; this holds for every upsert call of
the loop. -/
theorem upserted_points_shape (w : World) (df : List ParsedRow)
    (collection : String) (pts : List PointStruct)
    (hmem : Event.upsert collection pts ∈ upsertLoop w 0 df) :
    collection = "Articles" ∧
      ∃ k, ∃ hk : k < df.length,
        pts = [mkPoint k (df.get ⟨k, hk⟩)] ∧
        (mkPoint k (df.get ⟨k, hk⟩)).vector
          = [("title", (df.get ⟨k, hk⟩).title_vector),
             ("content", (df.get ⟨k, hk⟩).content_vector)] ∧
        (mkPoint k (df.get ⟨k, hk⟩)).payload
          = [("id", PValue.pInt (df.get ⟨k, hk⟩).id),
             ("title", PValue.pStr (df.get ⟨k, hk⟩).title),
             ("url", PValue.pStr (df.get ⟨k, hk⟩).url)] := by
  rcases upsertLoop_upsert_inv w df 0 collection pts hmem with ⟨k, hk, hc, hp⟩
  refine ⟨hc, k, hk, ?_, rfl, rfl⟩
  simpa using hp

/-- Witness for upserted_points_shape at the concrete world W0. -/
theorem upserted_points_shape_witness :
    "Articles" = "Articles" ∧
      ∃ k, ∃ hk : k < [sampleParsed].length,
        [mkPoint 0 sampleParsed] = [mkPoint k ([sampleParsed].get ⟨k, hk⟩)] ∧
        (mkPoint k ([sampleParsed].get ⟨k, hk⟩)).vector
          = [("title", ([sampleParsed].get ⟨k, hk⟩).title_vector),
             ("content", ([sampleParsed].get ⟨k, hk⟩).content_vector)] ∧
        (mkPoint k ([sampleParsed].get ⟨k, hk⟩)).payload
          = [("id", PValue.pInt ([sampleParsed].get ⟨k, hk⟩).id),
             ("title", PValue.pStr ([sampleParsed].get ⟨k, hk⟩).title),
             ("url", PValue.pStr ([sampleParsed].get ⟨k, hk⟩).url)] :=
  upserted_points_shape W0 [sampleParsed] "Articles" [mkPoint 0 sampleParsed] (by decide)

/-- C6: when the parsing cell succeeds, the parsed dataframe relates row by
row to the loaded CSV: the columns id, url, title and text are unchanged,
the two vector columns are the literal_eval parses of their string forms,
and vector_id is the str image of the raw value.  The seven-column layout
is the RawRow and ParsedRow record types themselves. -/
theorem parse_step_columns (w : World) (raws : List RawRow) (df : List ParsedRow)
    (h : parseFrame w raws = Except.ok df) :
    df.length = raws.length ∧ List.Forall₂ (RowRel w) raws df := by
  have hrel := parseFrame_rows w raws df h
  exact ⟨hrel.length_eq.symm, hrel⟩

/-- Witness for parse_step_columns at the concrete world W0. -/
theorem parse_step_columns_witness :
    [sampleParsed].length = W0.csv.length ∧
      List.Forall₂ (RowRel W0) W0.csv [sampleParsed] :=
  parse_step_columns W0 W0.csv [sampleParsed] rfl

/-- C3 (amended): in a run in which every external call succeeds, the trace
is exactly: download, extraction, CSV read, vector parsing, client setup,
the two collection creations, the whole upsert loop, the count check, then
the first query (embedding plus search) followed immediately by the
printing of its results, then the second query followed by the printing of
its results.  The phases download through upsert occur in strictly this
order; the results of the first query are printed before the second query
is issued. -/
theorem script_phase_order (w : World) (df : List ParsedRow) (n : Nat)
    (d1 d2 : List ℚ) (t1 t2 : List (List ℚ))
    (res1 res2 : List ScoredPoint) (p1 p2 : List Event)
    (hdl : w.downloadExc = none) (hex : w.extractExc = none)
    (hrd : w.readCsvExc = none)
    (hpar : parseFrame w w.csv = Except.ok df)
    (hgc : w.getCollectionsExc = none)
    (hvs : vectorSizeE df = Except.ok n)
    (hrc : w.recreateExc = none)
    (hct : w.countExc = none)
    (he1 : w.embedResp "modern art in Europe" EMBEDDING_MODEL = Except.ok (d1 :: t1))
    (hs1 : w.searchRes "Articles" "title" d1 20 = Except.ok res1)
    (hp1 : printResults 0 res1 = (p1, Except.ok ()))
    (he2 : w.embedResp "Famous battles in Scottish history" EMBEDDING_MODEL
             = Except.ok (d2 :: t2))
    (hs2 : w.searchRes "Articles" "content" d2 20 = Except.ok res2)
    (hp2 : printResults 0 res2 = (p2, Except.ok ())) :
    runScript w =
      ([Event.download embeddings_url, Event.extractAll zipFileName "../data",
        Event.readCsv csvPath, Event.parseVectors, Event.getCollections,
        Event.recreateCollection "Articles" (collectionConfig n),
        Event.recreateCollection "Articles" (collectionConfig n)]
       ++ (upsertLoop w 0 df
       ++ ([Event.countPoints "Articles",
            Event.createEmbedding "modern art in Europe" EMBEDDING_MODEL,
            Event.search "Articles" "title" d1 20 false]
           ++ p1
           ++ ([Event.createEmbedding "Famous battles in Scottish history"
                  EMBEDDING_MODEL,
                Event.search "Articles" "content" d2 20 false]
           ++ p2))),
       Except.ok ()) ∧
    (∀ ev ∈ upsertLoop w 0 df, isUpsertEvt ev = true ∨ isPrintFailedEvt ev = true) ∧
    (∀ ev ∈ p1, isPrintResEvt ev = true) ∧
    (∀ ev ∈ p2, isPrintResEvt ev = true) := by
  refine ⟨runScript_trace w df n d1 d2 t1 t2 res1 res2 p1 p2 hdl hex hrd hpar hgc
            hvs hrc hct he1 hs1 hp1 he2 hs2 hp2,
          upsertLoop_event_kinds w 0 df, ?_, ?_⟩
  · intro ev hmem
    apply printResults_events 0 res1
    rw [hp1]
    exact hmem
  · intro ev hmem
    apply printResults_events 0 res2
    rw [hp2]
    exact hmem

/-- Counterexample to C3 as stated: printing query results is not a single
final step that follows all similarity queries.  In the fully successful
concrete run W0, the trace holds a printResult operation at position 11
(the printed results of the first query) before the search operation at
position 13 (the second similarity query). -/
theorem script_phase_order_cex :
    isPrintResEvt ((runScript W0).1.getD 11 Event.parseVectors) = true ∧
    isSearchEvt ((runScript W0).1.getD 13 Event.parseVectors) = true ∧
    (11 : Nat) < 13 := by
  refine ⟨by decide, by decide, by decide⟩

/-- Witness for script_phase_order at the concrete world W0. -/
theorem script_phase_order_witness : (runScript W0).2 = Except.ok () := by
  have h := script_phase_order W0 [sampleParsed] 2 [5, 6] [5, 6] [] []
    [samplePoint] [samplePoint]
    [Event.printResult 1 (PValue.pStr "rt") (PValue.pStr "ru") 1]
    [Event.printResult 1 (PValue.pStr "rt") (PValue.pStr "ru") 1]
    rfl rfl rfl rfl rfl rfl rfl rfl rfl rfl rfl rfl rfl rfl
  rw [h.1]

/-- C5: the upsert requests of the script are issued one at a time, in
dataframe row order, each carrying exactly one point and no batching: in a
fully successful run the subsequence of upsert operations of the whole
trace is exactly one singleton-point call per row, indexed 0, 1, 2, ... in
row order.  (The trace model is sequential by construction, which is how
the notebook issues its synchronous client calls.) -/
theorem upserts_sequential_one_point (w : World) (df : List ParsedRow) (n : Nat)
    (d1 d2 : List ℚ) (t1 t2 : List (List ℚ))
    (res1 res2 : List ScoredPoint) (p1 p2 : List Event)
    (hdl : w.downloadExc = none) (hex : w.extractExc = none)
    (hrd : w.readCsvExc = none)
    (hpar : parseFrame w w.csv = Except.ok df)
    (hgc : w.getCollectionsExc = none)
    (hvs : vectorSizeE df = Except.ok n)
    (hrc : w.recreateExc = none)
    (hct : w.countExc = none)
    (he1 : w.embedResp "modern art in Europe" EMBEDDING_MODEL = Except.ok (d1 :: t1))
    (hs1 : w.searchRes "Articles" "title" d1 20 = Except.ok res1)
    (hp1 : printResults 0 res1 = (p1, Except.ok ()))
    (he2 : w.embedResp "Famous battles in Scottish history" EMBEDDING_MODEL
             = Except.ok (d2 :: t2))
    (hs2 : w.searchRes "Articles" "content" d2 20 = Except.ok res2)
    (hp2 : printResults 0 res2 = (p2, Except.ok ())) :
    ((runScript w).1).filter isUpsertEvt
      = (withIdx 0 df).map (fun kv => Event.upsert "Articles" [mkPoint kv.1 kv.2]) := by
  rw [runScript_trace w df n d1 d2 t1 t2 res1 res2 p1 p2 hdl hex hrd hpar hgc
        hvs hrc hct he1 hs1 hp1 he2 hs2 hp2]
  have hq1 : p1.filter isUpsertEvt = [] := by
    have := printResults_filter_upsert 0 res1
    rw [hp1] at this
    exact this
  have hq2 : p2.filter isUpsertEvt = [] := by
    have := printResults_filter_upsert 0 res2
    rw [hp2] at this
    exact this
  simp [List.filter_append, upsertLoop_filter, hq1, hq2, isUpsertEvt]

/-- Witness for upserts_sequential_one_point at the concrete world W0. -/
theorem upserts_sequential_one_point_witness :
    ((runScript W0).1).filter isUpsertEvt
      = (withIdx 0 [sampleParsed]).map
          (fun kv => Event.upsert "Articles" [mkPoint kv.1 kv.2]) :=
  upserts_sequential_one_point W0 [sampleParsed] 2 [5, 6] [5, 6] [] []
    [samplePoint] [samplePoint]
    [Event.printResult 1 (PValue.pStr "rt") (PValue.pStr "ru") 1]
    [Event.printResult 1 (PValue.pStr "rt") (PValue.pStr "ru") 1]
    rfl rfl rfl rfl rfl rfl rfl rfl rfl rfl rfl rfl rfl rfl

/-- C7: the collection is created with both named vector fields sized by
the length of the first row's content vector: vectorSizeE reads only the
head row's content_vector (title vectors are never consulted, so changing
every title vector leaves the configured size unchanged), the
recreate_collection call configures title and content with exactly that
size, and any title vector whose length differs from the first content
vector's length disagrees with the configured size of the title field. -/
theorem collection_size_from_first_content (df : List ParsedRow)
    (hd : ParsedRow) (tl : List ParsedRow) (hdf : df = hd :: tl) :
    vectorSizeE df = Except.ok hd.content_vector.length ∧
    (∀ w : World, phaseRecreate w df
      = ([Event.recreateCollection "Articles"
            (collectionConfig hd.content_vector.length)], orNone w.recreateExc)) ∧
    collectionConfig hd.content_vector.length
      = [("title", { distance := Distance.COSINE, size := hd.content_vector.length }),
         ("content", { distance := Distance.COSINE, size := hd.content_vector.length })] ∧
    (∀ f : List ℚ → List ℚ, vectorSizeE (df.map (setTitleVec f)) = vectorSizeE df) ∧
    (∀ r ∈ df, r.title_vector.length ≠ hd.content_vector.length →
      ∀ n, vectorSizeE df = Except.ok n → r.title_vector.length ≠ n) := by
  subst hdf
  refine ⟨rfl, fun w => rfl, rfl, fun f => rfl, ?_⟩
  intro r hr hne n h
  injection h with h
  subst h
  exact hne

/-- Witness for collection_size_from_first_content on a concrete frame. -/
theorem collection_size_from_first_content_witness :
    vectorSizeE [sampleParsed] = Except.ok sampleParsed.content_vector.length ∧
    (phaseRecreate W0 [sampleParsed]).1
      = [Event.recreateCollection "Articles"
           (collectionConfig sampleParsed.content_vector.length)] := by
  have h := collection_size_from_first_content [sampleParsed] sampleParsed [] rfl
  refine ⟨h.1, ?_⟩
  rw [h.2.1 W0]

/-- C8 (amended): the point id of every upserted record is the dataframe
row index k, whatever the row's id or vector_id columns hold; the point
sent to the database never depends on vector_id (changing it changes no
upsert request of the loop).  The one later read of vector_id is that the
upsert error handler prints the whole failed row, which includes it. -/
theorem point_id_is_row_index (w : World) (i k : Nat) (v : ParsedRow)
    (s : String) (df : List ParsedRow) :
    (mkPoint k v).id = k ∧
    mkPoint k (setVectorId v s) = mkPoint k v ∧
    ((upsertLoop w i (df.map (fun r => setVectorId r s))).filter isUpsertEvt
      = (upsertLoop w i df).filter isUpsertEvt) := by
  refine ⟨rfl, rfl, ?_⟩
  rw [upsertLoop_filter, upsertLoop_filter, withIdx_map, List.map_map]
  rfl

/-- Counterexample to C8 as stated: vector_id is read after the parsing
step.  The worlds W1 and W8b agree on every column of the CSV except
vector_id (7 versus 8) and on every oracle, yet their traces differ: the
failed-row print of the upsert handler includes the row's stringified
vector_id. -/
theorem vector_id_unread_cex :
    W8b.csv.map RawRow.id = W1.csv.map RawRow.id ∧
    W8b.csv.map RawRow.url = W1.csv.map RawRow.url ∧
    W8b.csv.map RawRow.title = W1.csv.map RawRow.title ∧
    W8b.csv.map RawRow.text = W1.csv.map RawRow.text ∧
    W8b.csv.map RawRow.title_vector = W1.csv.map RawRow.title_vector ∧
    W8b.csv.map RawRow.content_vector = W1.csv.map RawRow.content_vector ∧
    W8b.csv.map RawRow.vector_id ≠ W1.csv.map RawRow.vector_id ∧
    (runScript W8b).1 ≠ (runScript W1).1 := by
  refine ⟨rfl, rfl, rfl, rfl, rfl, rfl, by decide, by decide⟩

/-- C9: query_qdrant always searches with limit equal to its top_k argument
and query_filter None (the search event records hasFilter false), sends as
query vector the first embedding of the embeddings-API response paired with
vector_name, and, when the search service honors its limit, returns at most
top_k results; its defaults are vector_name title and top_k 20. -/
theorem query_qdrant_spec (w : World) (query collection_name vector_name : String)
    (top_k : Nat) (d0 : List ℚ) (tl : List (List ℚ)) (res : List ScoredPoint)
    (he : w.embedResp query EMBEDDING_MODEL = Except.ok (d0 :: tl))
    (hs : w.searchRes collection_name vector_name d0 top_k = Except.ok res)
    (hlim : ∀ c v d m r, w.searchRes c v d m = Except.ok r → r.length ≤ m) :
    query_qdrant w query collection_name vector_name top_k
      = ([Event.createEmbedding query EMBEDDING_MODEL,
          Event.search collection_name vector_name d0 top_k false],
         Except.ok res) ∧
    res.length ≤ top_k ∧
    query_qdrant w query collection_name
      = query_qdrant w query collection_name "title" 20 := by
  refine ⟨?_, hlim _ _ _ _ _ hs, rfl⟩
  simp [query_qdrant, he, hs]

/-- Witness for query_qdrant_spec at the concrete world W0. -/
theorem query_qdrant_spec_witness :
    query_qdrant W0 "modern art in Europe" "Articles" "title" 20
      = ([Event.createEmbedding "modern art in Europe" EMBEDDING_MODEL,
          Event.search "Articles" "title" [5, 6] 20 false],
         Except.ok [samplePoint]) ∧
    ([samplePoint] : List ScoredPoint).length ≤ 20 := by
  have hlim : ∀ c v d m r, W0.searchRes c v d m = Except.ok r → r.length ≤ m := by
    intro c v d m r hr
    injection hr with hr
    subst hr
    simp [List.length_take]
  have h := query_qdrant_spec W0 "modern art in Europe" "Articles" "title" 20
    [5, 6] [] [samplePoint] rfl rfl hlim
  exact ⟨h.1, h.2.1⟩

/-- C1: the upsert loop is the only exception handler in the script.  A
failing upsert of row k is caught: the failed row and the exception are
printed and every row of the dataframe still gets its upsert call, and
upsert failures never change the script's final outcome.  An exception in
the download, the extraction, the CSV read, the vector parsing, the
collection creation (the size computation or the recreate call itself) or
the search propagates uncaught and aborts the script with that very
exception. -/
theorem upsert_only_exception_handler (w : World) :
    (∀ df k e, ∀ hk : k < df.length, w.upsertExc k = some e →
        Event.printFailedRow k (df.get ⟨k, hk⟩) e ∈ upsertLoop w 0 df) ∧
    (∀ df k, ∀ hk : k < df.length,
        Event.upsert "Articles" [mkPoint k (df.get ⟨k, hk⟩)] ∈ upsertLoop w 0 df) ∧
    (∀ e, w.downloadExc = some e → (runScript w).2 = Except.error e) ∧
    (∀ e, w.downloadExc = none → w.extractExc = some e →
        (runScript w).2 = Except.error e) ∧
    (∀ e, w.downloadExc = none → w.extractExc = none → w.readCsvExc = some e →
        (runScript w).2 = Except.error e) ∧
    (∀ e, w.downloadExc = none → w.extractExc = none → w.readCsvExc = none →
        parseFrame w w.csv = Except.error e → (runScript w).2 = Except.error e) ∧
    (∀ e df, w.downloadExc = none → w.extractExc = none → w.readCsvExc = none →
        parseFrame w w.csv = Except.ok df → w.getCollectionsExc = none →
        vectorSizeE df = Except.error e → (runScript w).2 = Except.error e) ∧
    (∀ e df n, w.downloadExc = none → w.extractExc = none → w.readCsvExc = none →
        parseFrame w w.csv = Except.ok df → w.getCollectionsExc = none →
        vectorSizeE df = Except.ok n → w.recreateExc = some e →
        (runScript w).2 = Except.error e) ∧
    (∀ e df tr0 d1 t1, prefixPhases w = (tr0, Except.ok df) → w.countExc = none →
        w.embedResp "modern art in Europe" EMBEDDING_MODEL = Except.ok (d1 :: t1) →
        w.searchRes "Articles" "title" d1 20 = Except.error e →
        (runScript w).2 = Except.error e) ∧
    (∀ df tr0, prefixPhases w = (tr0, Except.ok df) →
        (runScript w).2 = (postPhases w).2) := by
  refine ⟨?_, ?_, ?_, ?_, ?_, ?_, ?_, ?_, ?_, ?_⟩
  · intro df k e hk hx
    have h := upsertLoop_mem_printFailed w df 0 k hk e (by simpa using hx)
    simpa using h
  · intro df k hk
    have h := upsertLoop_mem_upsert w df 0 k hk
    simpa using h
  · intro e h
    simp [runScript, prefixPhases, step, phaseDownload, orNone, h]
  · intro e h1 h2
    simp [runScript, prefixPhases, step, phaseDownload, phaseExtract, orNone, h1, h2]
  · intro e h1 h2 h3
    simp [runScript, prefixPhases, step, phaseDownload, phaseExtract, phaseReadCsv,
          orNone, h1, h2, h3]
  · intro e h1 h2 h3 h4
    simp [runScript, prefixPhases, step, phaseDownload, phaseExtract, phaseReadCsv,
          phaseParse, orNone, h1, h2, h3, h4]
  · intro e df h1 h2 h3 h4 h5 h6
    simp [runScript, prefixPhases, step, phaseDownload, phaseExtract, phaseReadCsv,
          phaseParse, phaseGetCollections, phaseRecreate, orNone,
          h1, h2, h3, h4, h5, h6]
  · intro e df n h1 h2 h3 h4 h5 h6 h7
    simp [runScript, prefixPhases, step, phaseDownload, phaseExtract, phaseReadCsv,
          phaseParse, phaseGetCollections, phaseRecreate, orNone,
          h1, h2, h3, h4, h5, h6, h7]
  · intro e df tr0 d1 t1 hpre hct he1 hs1
    rw [runScript_decomp w df tr0 hpre]
    simp [postPhases, step, phaseCount, query_qdrant, orNone, hct, he1, hs1]
  · intro df tr0 hpre
    rw [runScript_decomp w df tr0 hpre]

/-- Witness for upsert_only_exception_handler at the world W1, whose row-0
upsert raises; the exception is printed, the row is still attempted and the
script still finishes normally. -/
theorem upsert_only_exception_handler_witness :
    Event.printFailedRow 0 sampleParsed "boom" ∈ upsertLoop W1 0 [sampleParsed] ∧
    Event.upsert "Articles" [mkPoint 0 sampleParsed] ∈ upsertLoop W1 0 [sampleParsed] ∧
    (runScript W1).2 = Except.ok () := by
  have h := upsert_only_exception_handler W1
  refine ⟨h.1 [sampleParsed] 0 "boom" (by decide) rfl,
          h.2.1 [sampleParsed] 0 (by decide), ?_⟩
  have hfin := h.2.2.2.2.2.2.2.2.2 [sampleParsed] _
    (prefixPhases_ok W1 [sampleParsed] 2 rfl rfl rfl rfl rfl rfl rfl)
  rw [hfin]
  rfl

end QdrantNB
